import Mathlib

/-!
Shallow embedding of the `ExternalCallback` external field of
`hoomd/hpmc/ExternalCallback.h`, together with theorems checking the
specification's claims about it.

Modelling conventions:
* `Scalar` (a C++ floating-point type) is idealised as the real numbers `ℝ`,
  and `exp` as `Real.exp`.
* The member functions run against the live system (`m_sysdef` / `m_pdata`);
  they are modelled as functions threading an explicit `SysState` value, so
  that frame properties (what is and is not mutated) are visible.
* A C++ `assert` whose condition fails aborts the step; an operation that can
  hit such an `assert` returns an `Option`, with `none` for the abort.
-/

namespace Hpmc

/-- A 3-vector of scalars (`vec3<Scalar>`). -/
structure Vec3 where
  x : ℝ
  y : ℝ
  z : ℝ

/-- A quaternion (`quat<Scalar>`): scalar part plus vector part. -/
structure Quat where
  s : ℝ
  vx : ℝ
  vy : ℝ
  vz : ℝ

/-- Modelled from the spec: `BoxDim` (declared in `hoomd/BoxDim.h`, not among
the sources) is the global simulation box, possibly anisotropic: box lengths
plus tilt factors. -/
structure BoxDim where
  lx : ℝ
  ly : ℝ
  lz : ℝ
  xy : ℝ
  xz : ℝ
  yz : ℝ

/-- A shape as this subsystem sees it: an opaque value exposing an
`orientation` accessor (the source reads only `shape_old.orientation` and
`shape_new.orientation`). -/
structure Shape where
  orientation : Quat

/-- The per-particle part of a snapshot (`snap->particle_data`): ordered
sequences of positions and orientations. -/
structure SnapParticleData where
  pos : List Vec3
  orientation : List Quat

/-- Modelled from the spec: `SnapshotSystemData` (declared in
`hoomd/SnapshotSystemData.h`, not among the sources) is a value-semantic
point-in-time copy of a tag-to-index map, the per-particle data, and the
global box. -/
structure Snapshot where
  global_box : BoxDim
  map : List (Nat × Nat)
  particle_data : SnapParticleData

/-- The live particle store (`m_pdata`): the tag array plus per-particle
positions and orientations, indexed by transient local index. -/
structure PData where
  tags : List Nat
  pos : List Vec3
  orientation : List Quat

/-- The live system state the field object can reach (`m_sysdef`): the
particle store and the global box. -/
structure SysState where
  pdata : PData
  box : BoxDim

/-- Modelled from the spec: `SystemDefinition::takeSnapshot` is implemented
outside the sources.  Per the spec it produces an owned point-in-time copy of
the particle data whose tag-to-index map covers every live particle exactly
once, with `map[tag]` the slot of that particle in the copied sequences; the
live state is read, never modified, so it is returned unchanged. -/
def takeSnapshot (st : SysState) : Snapshot × SysState :=
  ({ global_box := st.box
     map := st.pdata.tags.enum.map (fun it => (it.2, it.1))
     particle_data := { pos := st.pdata.pos, orientation := st.pdata.orientation } },
   st)

/-- The externally supplied scoring object (`pybind11::object callback`):
either the designated empty sentinel (`pybind11::none()`), or a scorer that,
applied to a snapshot, produces either the designated empty return or a
scalar energy. -/
def Callback : Type := Option (Snapshot → Option ℝ)

/-- `ExternalCallback::getEnergy`: energy 0 for the empty callback; otherwise
invoke the callback on the snapshot, an empty return yielding 0 and any other
return being cast to the scalar energy. -/
def getEnergy (callback : Callback) (snap : Snapshot) : ℝ :=
  match callback with
  | none => (0 : ℝ)
  | some f =>
    match f snap with
    | none => (0 : ℝ)
    | some rv => rv

/-- Overwrite one snapshot slot's position and orientation
(`snap->particle_data.pos[idx] = p; snap->particle_data.orientation[idx] = q`). -/
def setSlot (snap : Snapshot) (idx : Nat) (p : Vec3) (q : Quat) : Snapshot :=
  { snap with particle_data :=
      { pos := snap.particle_data.pos.set idx p
        orientation := snap.particle_data.orientation.set idx q } }

/-- `ExternalCallback::calculateBoltzmannWeight`: take a snapshot of the
current configuration, get its energy, return `exp(-energy)`.  The timestep
argument is unused and no random stream is consulted. -/
noncomputable def calculateBoltzmannWeight (cb : Callback) (timestep : Nat)
    (st : SysState) : ℝ × SysState :=
  let snapSt := takeSnapshot st
  let energy := getEnergy cb snapSt.1
  (Real.exp (-energy), snapSt.2)

/-- The restore loop of `ExternalCallback::calculateBoltzmannFactor`: for each
local particle, its tag paired with its caller-supplied old position and
orientation, find the tag in the snapshot map (the C++ `assert` firing on a
failed lookup is the `none` branch) and overwrite that snapshot slot with the
old values. -/
def restoreOld : Snapshot → List (Nat × Vec3 × Quat) → Option Snapshot
  | snap, [] => some snap
  | snap, (t, p, q) :: rest =>
    match snap.map.lookup t with
    | none => none
    | some snap_idx => restoreOld (setSlot snap snap_idx p q) rest

/-- `ExternalCallback::calculateBoltzmannFactor`: take a snapshot of the
current (already-new) configuration and get `energy_new`; overwrite the
snapshot's box with the old box and, for each of the `N` local particles
(tags read from the live tag array, in local-index order), overwrite the
mapped snapshot slot with the caller-supplied old position and orientation;
get `energy_old` of the mutated snapshot; return `exp(-energy_new +
energy_old)`. -/
noncomputable def calculateBoltzmannFactor (cb : Callback)
    (position_old_arg : List Vec3) (orientation_old_arg : List Quat)
    (box_old_arg : BoxDim) (st : SysState) : Option ℝ × SysState :=
  let snapSt := takeSnapshot st
  let snap := snapSt.1
  let energy_new := getEnergy cb snap
  let snap1 : Snapshot := { snap with global_box := box_old_arg }
  match restoreOld snap1
      (snapSt.2.pdata.tags.zip (position_old_arg.zip orientation_old_arg)) with
  | none => (none, snapSt.2)
  | some snap2 =>
    let energy_old := getEnergy cb snap2
    (some (Real.exp (-energy_new + energy_old)), snapSt.2)

/-- `ExternalCallback::boltzmann`: resolve the particle's tag from its live
local index, take a fresh snapshot, resolve the tag to a snapshot index (the
C++ `assert` firing on a failed lookup is the `none` branch), overwrite that
slot with the old position/orientation and get `energy_old`, overwrite the
same slot with the new position/orientation and get `energy_new`, and return
`exp(-energy_new + energy_old)`. -/
noncomputable def boltzmann (cb : Callback) (index : Nat)
    (position_old : Vec3) (shape_old : Shape)
    (position_new : Vec3) (shape_new : Shape)
    (st : SysState) : Option ℝ × SysState :=
  let tag := st.pdata.tags.getD index 0
  let snapSt := takeSnapshot st
  let snap := snapSt.1
  match snap.map.lookup tag with
  | none => (none, snapSt.2)
  | some snap_idx =>
    let snap1 := setSlot snap snap_idx position_old shape_old.orientation
    let energy_old := getEnergy cb snap1
    let snap2 := setSlot snap1 snap_idx position_new shape_new.orientation
    let energy_new := getEnergy cb snap2
    (some (Real.exp (-energy_new + energy_old)), snapSt.2)

/-- Modelled from the spec: the Saru random stream
(`hoomd/extern/saruprng.h` is not among the sources) is a deterministic
stream of uniform values; its state is a cursor into an abstract sequence of
raw uniform values in `[0,1)`. -/
structure Saru where
  seq : Nat → ℝ
  cursor : Nat

/-- Modelled from the spec: `Saru::s(lo, hi)` draws one uniform value in
`[lo, hi)` and advances the stream state by exactly one draw. -/
def Saru.s (rng : Saru) (lo hi : ℝ) : ℝ × Saru :=
  (lo + (hi - lo) * rng.seq rng.cursor, { rng with cursor := rng.cursor + 1 })

/-- `ExternalCallback::accept`: compute the Boltzmann factor of the trial
move, then draw one uniform value from `[0,1)` and accept iff the draw is
strictly below the factor.  An aborted `boltzmann` (failed tag lookup) aborts
`accept` before any draw is consumed. -/
noncomputable def accept (cb : Callback) (index : Nat)
    (position_old : Vec3) (shape_old : Shape)
    (position_new : Vec3) (shape_new : Shape)
    (rng : Saru) (st : SysState) : Option Bool × Saru × SysState :=
  let bSt := boltzmann cb index position_old shape_old position_new shape_new st
  match bSt.1 with
  | none => (none, rng, bSt.2)
  | some boltz =>
    let draw := rng.s (0 : ℝ) (1 : ℝ)
    let reject := if draw.1 < boltz then false else true
    (some (!reject), draw.2, bSt.2)

/-! Concrete fixtures used by the witness theorems. -/

/-- A concrete box. -/
def exBox : BoxDim := ⟨1, 1, 1, 0, 0, 0⟩

/-- The origin. -/
def exVec : Vec3 := ⟨0, 0, 0⟩

/-- A displaced position. -/
def exVec2 : Vec3 := ⟨1, 0, 0⟩

/-- The identity quaternion. -/
def exQuat : Quat := ⟨1, 0, 0, 0⟩

/-- A concrete shape. -/
def exShape : Shape := ⟨exQuat⟩

/-- A concrete one-particle system state: tag 5 at local index 0. -/
def exSt : SysState :=
  { pdata := { tags := [5], pos := [exVec], orientation := [exQuat] }, box := exBox }

/-- A concrete system state with no particles. -/
def emptySt : SysState :=
  { pdata := { tags := [], pos := [], orientation := [] }, box := exBox }

/-- The snapshot of `exSt`. -/
def exSnap : Snapshot := (takeSnapshot exSt).1

/-- A snapshot whose map is empty although a particle slot exists, standing
for a snapshot provider that diverged from the live store. -/
def badSnap : Snapshot := ⟨exBox, [], ⟨[exVec], [exQuat]⟩⟩

/-- A concrete random stream: every raw uniform value is one half. -/
noncomputable def exRng : Saru := ⟨fun _ => (1 : ℝ) / 2, 0⟩

/-- The snapshot `calculateBoltzmannFactor` produces from `exSt` when handed
old box `exBox` and old configuration `[exVec2]`, `[exQuat]`. -/
def exSnap2 : Snapshot :=
  setSlot { (takeSnapshot exSt).1 with global_box := exBox } 0 exVec2 exQuat

/-! Helper lemmas about the snapshot-slot overwrite and the restore loop. -/

theorem setSlot_map (snap : Snapshot) (i : Nat) (p : Vec3) (q : Quat) :
    (setSlot snap i p q).map = snap.map := rfl

theorem setSlot_box (snap : Snapshot) (i : Nat) (p : Vec3) (q : Quat) :
    (setSlot snap i p q).global_box = snap.global_box := rfl

theorem setSlot_setSlot (snap : Snapshot) (i : Nat) (p p' : Vec3) (q q' : Quat) :
    setSlot (setSlot snap i p q) i p' q' = setSlot snap i p' q' := by
  simp [setSlot, List.set_set]

theorem restoreOld_frame (l : List (Nat × Vec3 × Quat)) :
    ∀ snap snap2 : Snapshot, restoreOld snap l = some snap2 →
      snap2.map = snap.map ∧
      snap2.global_box = snap.global_box ∧
      snap2.particle_data.pos.length = snap.particle_data.pos.length ∧
      snap2.particle_data.orientation.length = snap.particle_data.orientation.length ∧
      ∀ j : Nat, (∀ e ∈ l, snap.map.lookup e.1 ≠ some j) →
        snap2.particle_data.pos[j]? = snap.particle_data.pos[j]? ∧
        snap2.particle_data.orientation[j]? = snap.particle_data.orientation[j]? := by
  induction l with
  | nil =>
    intro snap snap2 h
    simp only [restoreOld, Option.some.injEq] at h
    subst h
    exact ⟨rfl, rfl, rfl, rfl, fun j _ => ⟨rfl, rfl⟩⟩
  | cons e rest ih =>
    intro snap snap2 h
    obtain ⟨t, p, q⟩ := e
    simp only [restoreOld] at h
    cases hl : snap.map.lookup t with
    | none => rw [hl] at h; cases h
    | some i =>
      rw [hl] at h
      obtain ⟨hmap, hbox, hlp, hlo, hrest⟩ := ih (setSlot snap i p q) snap2 h
      refine ⟨hmap, hbox, ?_, ?_, ?_⟩
      · simpa [setSlot] using hlp
      · simpa [setSlot] using hlo
      · intro j hj
        have hij : i ≠ j := by
          intro hij
          exact hj (t, p, q) (List.mem_cons_self _ _) (hij ▸ hl)
        have hj' : ∀ e ∈ rest, (setSlot snap i p q).map.lookup e.1 ≠ some j := by
          intro e he
          exact hj e (List.mem_cons_of_mem _ he)
        obtain ⟨hp, ho⟩ := hrest j hj'
        refine ⟨?_, ?_⟩
        · rw [hp]; simp [setSlot, List.getElem?_set_ne hij]
        · rw [ho]; simp [setSlot, List.getElem?_set_ne hij]

theorem restoreOld_none_of_lookup_none (l : List (Nat × Vec3 × Quat)) :
    ∀ snap : Snapshot, (∃ e ∈ l, snap.map.lookup e.1 = none) →
      restoreOld snap l = none := by
  induction l with
  | nil =>
    intro snap h
    obtain ⟨e, he, _⟩ := h
    cases he
  | cons a rest ih =>
    intro snap h
    obtain ⟨t, p, q⟩ := a
    obtain ⟨e, he, hnone⟩ := h
    simp only [restoreOld]
    cases hl : snap.map.lookup t with
    | none => rfl
    | some i =>
      rcases List.mem_cons.mp he with he1 | he2
      · rw [he1] at hnone
        dsimp at hnone
        rw [hnone] at hl
        cases hl
      · exact ih (setSlot snap i p q) ⟨e, he2, hnone⟩

theorem restoreOld_isSome_of_lookup (l : List (Nat × Vec3 × Quat)) :
    ∀ snap : Snapshot, (∀ e ∈ l, (snap.map.lookup e.1).isSome) →
      (restoreOld snap l).isSome := by
  induction l with
  | nil => intro snap _; rfl
  | cons a rest ih =>
    intro snap h
    obtain ⟨t, p, q⟩ := a
    simp only [restoreOld]
    cases hl : snap.map.lookup t with
    | none =>
      have := h (t, p, q) (List.mem_cons_self _ _)
      rw [hl] at this
      cases this
    | some i =>
      exact ih (setSlot snap i p q) (fun e he => h e (List.mem_cons_of_mem _ he))

/-- Claim C4: the two-level null check of `getEnergy`: the empty callback
yields energy 0 unconditionally; a present callback is invoked on the
snapshot, an empty return yields 0, and any other return is the energy. -/
theorem getEnergy_null_checks (snap : Snapshot) (f : Snapshot → Option ℝ) :
    getEnergy none snap = 0 ∧
    getEnergy (some f) snap = (f snap).getD 0 := by
  refine ⟨rfl, ?_⟩
  cases h : f snap <;> simp [getEnergy, h]

/-- Claim C7: snapshot isolation: a `boltzmann` call leaves the live particle
store's positions and orientations (indeed the whole live state) exactly as
they were; only the private snapshot copy is mutated. -/
theorem boltzmann_live_store_unchanged (cb : Callback) (index : Nat)
    (po : Vec3) (so : Shape) (pn : Vec3) (sn : Shape) (st : SysState) :
    ((boltzmann cb index po so pn sn st).2).pdata.pos = st.pdata.pos ∧
    ((boltzmann cb index po so pn sn st).2).pdata.orientation = st.pdata.orientation ∧
    (boltzmann cb index po so pn sn st).2 = st := by
  have h2 : (boltzmann cb index po so pn sn st).2 = st := by
    unfold boltzmann
    dsimp only [takeSnapshot]
    split <;> rfl
  exact ⟨by rw [h2], by rw [h2], h2⟩

/-- Claim C6: the snapshot mutation `calculateBoltzmannFactor` performs
between its two energy evaluations changes only the snapshot's global box
(set to the supplied old box) and the position/orientation entries at
indices mapped from the supplied particles' tags; the tag-to-index map, the
sequence lengths, and every slot not mapped from a supplied tag are
unchanged. -/
theorem calculateBoltzmannFactor_frame (pol : List Vec3) (ool : List Quat)
    (box_old : BoxDim) (st : SysState) (snap2 : Snapshot)
    (h : restoreOld { (takeSnapshot st).1 with global_box := box_old }
          (st.pdata.tags.zip (pol.zip ool)) = some snap2) :
    snap2.map = (takeSnapshot st).1.map ∧
    snap2.global_box = box_old ∧
    snap2.particle_data.pos.length = (takeSnapshot st).1.particle_data.pos.length ∧
    snap2.particle_data.orientation.length =
      (takeSnapshot st).1.particle_data.orientation.length ∧
    ∀ j : Nat, (∀ e ∈ st.pdata.tags.zip (pol.zip ool),
        (takeSnapshot st).1.map.lookup e.1 ≠ some j) →
      snap2.particle_data.pos[j]? = (takeSnapshot st).1.particle_data.pos[j]? ∧
      snap2.particle_data.orientation[j]? =
        (takeSnapshot st).1.particle_data.orientation[j]? := by
  obtain ⟨hmap, hbox, hlp, hlo, hrest⟩ := restoreOld_frame _ _ _ h
  exact ⟨hmap, hbox, hlp, hlo, hrest⟩

/-- Claim C5: a failed tag lookup against the snapshot map makes the
operation abort the step (return `none`) rather than produce a value or skip
the particle, both in `boltzmann` and in the restore loop of
`calculateBoltzmannFactor`; when every looked-up tag is present the failure
branch is unreachable and the operations produce a value. -/
theorem tag_lookup_fail_fast (cb : Callback) (index : Nat)
    (po : Vec3) (so : Shape) (pn : Vec3) (sn : Shape)
    (pol : List Vec3) (ool : List Quat) (box_old : BoxDim)
    (st : SysState) (snap : Snapshot) (l : List (Nat × Vec3 × Quat)) :
    ((takeSnapshot st).1.map.lookup (st.pdata.tags.getD index 0) = none →
      (boltzmann cb index po so pn sn st).1 = none) ∧
    (((takeSnapshot st).1.map.lookup (st.pdata.tags.getD index 0)).isSome →
      ((boltzmann cb index po so pn sn st).1).isSome) ∧
    ((∃ e ∈ l, snap.map.lookup e.1 = none) → restoreOld snap l = none) ∧
    ((∀ e ∈ l, (snap.map.lookup e.1).isSome) → (restoreOld snap l).isSome) ∧
    ((∀ e ∈ st.pdata.tags.zip (pol.zip ool),
        ((takeSnapshot st).1.map.lookup e.1).isSome) →
      ((calculateBoltzmannFactor cb pol ool box_old st).1).isSome) := by
  refine ⟨?_, ?_, ?_, ?_, ?_⟩
  · intro h
    unfold boltzmann
    dsimp only
    rw [h]
  · intro h
    obtain ⟨i, hi⟩ := Option.isSome_iff_exists.mp h
    unfold boltzmann
    dsimp only
    rw [hi]
    rfl
  · exact restoreOld_none_of_lookup_none l snap
  · exact restoreOld_isSome_of_lookup l snap
  · intro h
    have hz : (restoreOld { (takeSnapshot st).1 with global_box := box_old }
        (st.pdata.tags.zip (pol.zip ool))).isSome :=
      restoreOld_isSome_of_lookup _ _ (fun e he => h e he)
    obtain ⟨s2, hs2⟩ := Option.isSome_iff_exists.mp hz
    unfold calculateBoltzmannFactor
    dsimp only
    have h2 : (takeSnapshot st).2 = st := rfl
    rw [h2, hs2]
    rfl

/-- Claim C9: `calculateBoltzmannWeight` returns `exp(-E)` for the energy `E`
of a snapshot of the current live configuration; it consumes no random
stream (none is in scope), leaves the live state unchanged, and its value is
independent of the timestep argument. -/
theorem calculateBoltzmannWeight_spec (cb : Callback) (t t1 t2 : Nat)
    (st : SysState) :
    (calculateBoltzmannWeight cb t st).1 =
      Real.exp (-(getEnergy cb ((takeSnapshot st).1))) ∧
    (calculateBoltzmannWeight cb t1 st).1 = (calculateBoltzmannWeight cb t2 st).1 ∧
    (calculateBoltzmannWeight cb t st).2 = st :=
  ⟨rfl, rfl, rfl⟩

/-- Claim C1: `boltzmann` resolves the particle's tag from its live local
index, takes a fresh snapshot, evaluates `E_old` on the snapshot with that
single slot overwritten by the old position and orientation, evaluates
`E_new` on the snapshot with the same slot overwritten by the new position
and orientation, and returns `exp(E_old - E_new)`. -/
theorem boltzmann_eval_sequence (cb : Callback) (index : Nat)
    (po : Vec3) (so : Shape) (pn : Vec3) (sn : Shape) (st : SysState)
    (snap_idx : Nat)
    (h : (takeSnapshot st).1.map.lookup (st.pdata.tags.getD index 0) = some snap_idx) :
    (boltzmann cb index po so pn sn st).1 =
      some (Real.exp
        (getEnergy cb (setSlot (takeSnapshot st).1 snap_idx po so.orientation) -
         getEnergy cb (setSlot (takeSnapshot st).1 snap_idx pn sn.orientation))) := by
  unfold boltzmann
  dsimp only
  rw [h]
  dsimp only
  rw [setSlot_setSlot, sub_eq_neg_add]

/-- Claim C1 witness: the single-particle state `exSt` with a concrete move,
evaluated through `boltzmann_eval_sequence`. -/
theorem boltzmann_eval_sequence_witness :
    (boltzmann none 0 exVec exShape exVec2 exShape exSt).1 =
      some (Real.exp
        (getEnergy none (setSlot (takeSnapshot exSt).1 0 exVec exShape.orientation) -
         getEnergy none (setSlot (takeSnapshot exSt).1 0 exVec2 exShape.orientation))) :=
  boltzmann_eval_sequence none 0 exVec exShape exVec2 exShape exSt 0 rfl

/-- Claim C8: the no-op move, identical old and new position and shape,
yields a Boltzmann ratio of exactly `exp(0) = 1`. -/
theorem boltzmann_noop_move_one (cb : Callback) (index : Nat)
    (po : Vec3) (so : Shape) (st : SysState) (snap_idx : Nat)
    (h : (takeSnapshot st).1.map.lookup (st.pdata.tags.getD index 0) = some snap_idx) :
    (boltzmann cb index po so po so st).1 = some 1 := by
  unfold boltzmann
  dsimp only
  rw [h]
  dsimp only
  rw [setSlot_setSlot, neg_add_cancel, Real.exp_zero]

/-- Claim C8 witness: a no-op move on `exSt`. -/
theorem boltzmann_noop_move_one_witness :
    (boltzmann none 0 exVec2 exShape exVec2 exShape exSt).1 = some 1 :=
  boltzmann_noop_move_one none 0 exVec2 exShape exSt 0 rfl

/-- Claim C3: `calculateBoltzmannFactor` evaluates `E_new` on a snapshot of
the current configuration, `E_old` on that snapshot with its box replaced by
the supplied old box and each local particle's mapped slot overwritten with
the supplied old values, and returns `exp(E_old - E_new)`; with zero local
particles the factor comes from the box change alone. -/
theorem calculateBoltzmannFactor_spec (cb : Callback) (pol : List Vec3)
    (ool : List Quat) (box_old : BoxDim) (st : SysState) (snap2 : Snapshot)
    (h : restoreOld { (takeSnapshot st).1 with global_box := box_old }
          (st.pdata.tags.zip (pol.zip ool)) = some snap2) :
    (calculateBoltzmannFactor cb pol ool box_old st).1 =
      some (Real.exp (getEnergy cb snap2 - getEnergy cb (takeSnapshot st).1)) ∧
    (st.pdata.tags = [] →
      (calculateBoltzmannFactor cb pol ool box_old st).1 =
        some (Real.exp
          (getEnergy cb { (takeSnapshot st).1 with global_box := box_old } -
           getEnergy cb (takeSnapshot st).1))) := by
  have main : (calculateBoltzmannFactor cb pol ool box_old st).1 =
      some (Real.exp (getEnergy cb snap2 - getEnergy cb (takeSnapshot st).1)) := by
    unfold calculateBoltzmannFactor
    dsimp only
    have h2 : (takeSnapshot st).2 = st := rfl
    rw [h2, h]
    dsimp only
    rw [sub_eq_neg_add]
  refine ⟨main, fun ht => ?_⟩
  have hz : st.pdata.tags.zip (pol.zip ool) = [] := by rw [ht]; rfl
  rw [hz] at h
  have hs : snap2 = { (takeSnapshot st).1 with global_box := box_old } := by
    simpa [restoreOld] using h.symm
  rw [main, hs]

/-- Claim C3 witness: `exSt` with a one-particle old configuration, and the
degenerate zero-particle case on `emptySt`. -/
theorem calculateBoltzmannFactor_spec_witness :
    (calculateBoltzmannFactor none [exVec2] [exQuat] exBox exSt).1 =
      some (Real.exp (getEnergy none exSnap2 - getEnergy none (takeSnapshot exSt).1)) ∧
    (calculateBoltzmannFactor none [] [] exBox emptySt).1 =
      some (Real.exp
        (getEnergy none { (takeSnapshot emptySt).1 with global_box := exBox } -
         getEnergy none (takeSnapshot emptySt).1)) :=
  ⟨(calculateBoltzmannFactor_spec none [exVec2] [exQuat] exBox exSt exSnap2 rfl).1,
   (calculateBoltzmannFactor_spec none [] [] exBox emptySt
      { (takeSnapshot emptySt).1 with global_box := exBox } rfl).2 rfl⟩

/-- Claim C6 witness: the frame of the mutation on `exSt`, checked at index
1, which no supplied tag maps to. -/
theorem calculateBoltzmannFactor_frame_witness :
    exSnap2.map = (takeSnapshot exSt).1.map ∧
    exSnap2.global_box = exBox ∧
    exSnap2.particle_data.pos.length = (takeSnapshot exSt).1.particle_data.pos.length ∧
    exSnap2.particle_data.orientation.length =
      (takeSnapshot exSt).1.particle_data.orientation.length ∧
    exSnap2.particle_data.pos[1]? = (takeSnapshot exSt).1.particle_data.pos[1]? ∧
    exSnap2.particle_data.orientation[1]? =
      (takeSnapshot exSt).1.particle_data.orientation[1]? := by
  obtain ⟨h1, h2, h3, h4, h5⟩ :=
    calculateBoltzmannFactor_frame [exVec2] [exQuat] exBox exSt exSnap2 rfl
  obtain ⟨h6, h7⟩ := h5 1 (by decide)
  exact ⟨h1, h2, h3, h4, h6, h7⟩

/-- Claim C5 witness: an out-of-range index on the empty state makes
`boltzmann` abort; on consistent states the operations produce values; a
diverged snapshot makes the restore loop abort. -/
theorem tag_lookup_fail_fast_witness :
    (boltzmann none 0 exVec exShape exVec2 exShape emptySt).1 = none ∧
    ((boltzmann none 0 exVec exShape exVec2 exShape exSt).1).isSome ∧
    restoreOld badSnap [(5, exVec, exQuat)] = none ∧
    (restoreOld exSnap [(5, exVec2, exQuat)]).isSome ∧
    ((calculateBoltzmannFactor none [exVec2] [exQuat] exBox exSt).1).isSome :=
  ⟨(tag_lookup_fail_fast none 0 exVec exShape exVec2 exShape [exVec2] [exQuat]
      exBox emptySt badSnap [(5, exVec, exQuat)]).1 rfl,
   (tag_lookup_fail_fast none 0 exVec exShape exVec2 exShape [exVec2] [exQuat]
      exBox exSt badSnap [(5, exVec, exQuat)]).2.1 rfl,
   (tag_lookup_fail_fast none 0 exVec exShape exVec2 exShape [exVec2] [exQuat]
      exBox emptySt badSnap [(5, exVec, exQuat)]).2.2.1
     ⟨(5, exVec, exQuat), List.mem_singleton_self _, rfl⟩,
   (tag_lookup_fail_fast none 0 exVec exShape exVec2 exShape [exVec2] [exQuat]
      exBox exSt exSnap [(5, exVec2, exQuat)]).2.2.2.1
     (by intro e he; rw [List.mem_singleton] at he; subst he; rfl),
   (tag_lookup_fail_fast none 0 exVec exShape exVec2 exShape [exVec2] [exQuat]
      exBox exSt badSnap [(5, exVec, exQuat)]).2.2.2.2
     (by
       intro e he
       rw [show exSt.pdata.tags.zip ([exVec2].zip [exQuat]) =
         [(5, exVec2, exQuat)] from rfl] at he
       rw [List.mem_singleton] at he
       subst he
       rfl)⟩

/-- Claim C2: `accept` computes the Boltzmann factor, draws exactly one
uniform value from `[0,1)`, returns true iff the draw is strictly below the
factor, and advances the random stream by exactly one draw whatever the
outcome. -/
theorem accept_draw_spec (cb : Callback) (index : Nat)
    (po : Vec3) (so : Shape) (pn : Vec3) (sn : Shape)
    (rng : Saru) (st : SysState) (r : ℝ)
    (h : (boltzmann cb index po so pn sn st).1 = some r) :
    ((accept cb index po so pn sn rng st).1 = some true ↔ (rng.s 0 1).1 < r) ∧
    (accept cb index po so pn sn rng st).2.1.cursor = rng.cursor + 1 ∧
    (accept cb index po so pn sn rng st).2.1.seq = rng.seq := by
  unfold accept
  dsimp only
  rw [h]
  dsimp only
  by_cases hc : (rng.s 0 1).1 < r
  · simp [hc, Saru.s]
  · simp [hc, Saru.s]

/-- Claim C2 witness: `accept` on `exSt` with the empty callback and the
constant one-half stream, via `accept_draw_spec`. -/
theorem accept_draw_spec_witness :
    ((accept none 0 exVec exShape exVec2 exShape exRng exSt).1 = some true ↔
        (exRng.s 0 1).1 < Real.exp (-(0 : ℝ) + 0)) ∧
    (accept none 0 exVec exShape exVec2 exShape exRng exSt).2.1.cursor =
      exRng.cursor + 1 ∧
    (accept none 0 exVec exShape exVec2 exShape exRng exSt).2.1.seq = exRng.seq :=
  accept_draw_spec none 0 exVec exShape exVec2 exShape exRng exSt
    (Real.exp (-(0 : ℝ) + 0)) rfl

/-- Claim C10: with the empty-sentinel callback both energies are 0, so
`boltzmann` returns exactly 1 and, the drawn uniform value from `[0,1)`
being below 1, `accept` returns true while still consuming its one draw. -/
theorem empty_callback_accepts (index : Nat) (po : Vec3) (so : Shape)
    (pn : Vec3) (sn : Shape) (rng : Saru) (st : SysState) (snap_idx : Nat)
    (h : (takeSnapshot st).1.map.lookup (st.pdata.tags.getD index 0) = some snap_idx)
    (h0 : 0 ≤ rng.seq rng.cursor) (h1 : rng.seq rng.cursor < 1) :
    (boltzmann none index po so pn sn st).1 = some 1 ∧
    (accept none index po so pn sn rng st).1 = some true ∧
    (accept none index po so pn sn rng st).2.1.cursor = rng.cursor + 1 := by
  have hb : (boltzmann none index po so pn sn st).1 = some 1 := by
    unfold boltzmann
    dsimp only
    rw [h]
    dsimp only [getEnergy]
    rw [neg_add_cancel, Real.exp_zero]
  have hu : (rng.s 0 1).1 < 1 := by
    simpa [Saru.s] using h1
  refine ⟨hb, ?_, ?_⟩
  · unfold accept
    dsimp only
    rw [hb]
    dsimp only
    rw [if_pos hu]
    rfl
  · unfold accept
    dsimp only
    rw [hb]
    rfl

/-- Claim C10 witness: `exSt` with the empty callback and the constant
one-half stream. -/
theorem empty_callback_accepts_witness :
    (boltzmann none 0 exVec exShape exVec2 exShape exSt).1 = some 1 ∧
    (accept none 0 exVec exShape exVec2 exShape exRng exSt).1 = some true ∧
    (accept none 0 exVec exShape exVec2 exShape exRng exSt).2.1.cursor =
      exRng.cursor + 1 :=
  empty_callback_accepts 0 exVec exShape exVec2 exShape exRng exSt 0 rfl
    (by norm_num [exRng]) (by norm_num [exRng])

end Hpmc
